import Mathlib

/-!
Verification of the DrugInsightAI authentication core
(`services/api/src/middleware/auth.py`, `services/api/src/routes/auth.py`,
`services/api/src/schemas/auth.py`, `services/api/src/config.py`) as a shallow
embedding in Lean 4.

Python dictionaries carrying JSON-like claim values are modelled as
association lists over a value type `Jval`; machine integers do not occur in
the modelled code (times are modelled as seconds since an arbitrary epoch).
Fallible operations return `Option`.  Wall-clock time is passed explicitly as
a `now : Nat` argument to every operation that reads the clock.
-/

/-- A JSON-like value as it occurs in JWT claim sets and identity
dictionaries: Python `None` is `Jval.null`. -/
inductive Jval where
  | null
  | str (s : String)
  | num (n : Int)
  | jbool (b : Bool)
deriving DecidableEq, Repr

/-- A Python dictionary with string keys and JSON-like values, modelled as an
association list whose keys are pairwise distinct by construction (all
payloads in the modelled code are built by literal construction and
`pset`). -/
abbrev Payload := List (String × Jval)

/-- Dictionary key lookup: `some v` when the key is present with value `v`,
`none` when absent.  Distinguishes an absent key from a key bound to
`Jval.null`. -/
def plookup (p : Payload) (k : String) : Option Jval :=
  (p.find? (fun kv => kv.1 == k)).map (fun kv => kv.2)

/-- Python `d.get(k)`: the bound value, or `None` (here `Jval.null`) when the
key is absent. -/
def pget (p : Payload) (k : String) : Jval :=
  (plookup p k).getD .null

/-- Python `d.get(k, default)`: the bound value, or `default` when the key is
absent (a key explicitly bound to `None` yields `None`, not the default). -/
def pgetD (p : Payload) (k : String) (default : Jval) : Jval :=
  (plookup p k).getD default

/-- Python `d[k] = v` / `d.update(...)` on one key: replace the binding if the
key is present, otherwise append it. -/
def pset : Payload → String → Jval → Payload
  | [], k, v => [(k, v)]
  | (k0, v0) :: rest, k, v =>
      if k0 == k then (k, v) :: rest else (k0, v0) :: pset rest k v

/-- Python truthiness of a JSON-like value (`None`, `""`, `0`, `False` are
falsy). -/
def jvalFalsy : Jval → Bool
  | .null => true
  | .str s => s == ""
  | .num n => n == 0
  | .jbool b => !b

/-- Python truthiness of an optional dictionary: `None` and the empty dict
are falsy. -/
def pyTruthy (o : Option Payload) : Bool :=
  match o with
  | none => false
  | some p => !p.isEmpty

/-- Python truthiness of an optional string: `None` and `""` are falsy. -/
def pyTruthyStr (o : Option String) : Bool :=
  match o with
  | none => false
  | some s => !(s == "")

/-- Python `s.startswith(pre)`, computed structurally on the character lists
of the two strings (same semantics as `String.startsWith`, but reducible by
the kernel). -/
def strStartsWith (s pre : String) : Bool :=
  pre.data.isPrefixOf s.data

/-- Python `s.split(" ")`: the space-separated fields, keeping empty fields
(so the split of `"Bearer "` is `["Bearer", ""]`), computed structurally on
the character list. -/
def pySplitSpace (s : String) : List String :=
  (s.data.foldr
    (fun c acc =>
      if c = ' ' then [] :: acc
      else (c :: acc.headD []) :: acc.tail)
    [[]]).map (fun cs => String.mk cs)

/-- The configuration surface consumed by the auth core
(`config.py::Settings`); field defaults are the defaults of `Settings`. -/
structure Settings where
  secret_key : String := "dev-secret-key-change-in-production-INSECURE"
  algorithm : String := "HS256"
  access_token_expire_minutes : Nat := 30
  refresh_token_expire_days : Nat := 7
  password_hash_schemes : List String := ["bcrypt"]
  enable_local_auth : Bool := true
  enable_aws_auth : Bool := false
deriving DecidableEq, Repr

/-!  ## Password Hasher (passlib CryptContext)

`passlib` is a third-party library, not part of this repository.  Its
behaviour is modelled from the spec contract for the Password Hasher: `hash`
produces a salted digest under the first configured scheme, and `verify`
returns a Bool (never throws), true exactly when the plaintext re-hashes to
the digest under the scheme and salt recorded in the digest and that scheme
is among the configured ones. -/

/-- Modelled from the spec: the underlying one-way function of a passlib hash
scheme, deterministic in scheme, salt and plaintext.  The concrete formula is
an arbitrary executable stand-in; no theorem depends on its arithmetic. -/
def rawHash (scheme : String) (salt : Nat) (plaintext : String) : Nat :=
  plaintext.data.foldl (fun a c => a * 131 + c.toNat + 1) (scheme.data.length + 7)
    + salt * 1000003

/-- A candidate digest string: either it parses as a digest of some scheme
(`wellFormed scheme salt value`) or it does not (`malformed`, carrying the
raw text).  Every string falls in exactly one of the two classes, so
quantifying over `DigestStr` quantifies over all digest strings. -/
inductive DigestStr where
  | wellFormed (scheme : String) (salt : Nat) (value : Nat)
  | malformed (text : String)
deriving DecidableEq, Repr

/-- Embeds `passlib.context.CryptContext(schemes=...)`: the configured scheme list
and the salt the generator will use for the next `hash` call. -/
structure CryptContext where
  schemes : List String
  next_salt : Nat
deriving DecidableEq, Repr

/-- Embeds `CryptContext.hash`: a fresh salted digest of the password under the
default (first configured) scheme. -/
def CryptContext.hash (ctx : CryptContext) (password : String) : DigestStr :=
  let scheme := ctx.schemes.headD "bcrypt"
  .wellFormed scheme ctx.next_salt (rawHash scheme ctx.next_salt password)

/-- Modelled from the spec: `CryptContext.verify` returns a Bool for every
input and never throws; it is true exactly when the digest is well-formed
under a configured scheme and the plaintext re-hashes to it with the
parameters (scheme, salt) recorded in the digest. -/
def CryptContext.verify (ctx : CryptContext) (plain : String) (digest : DigestStr) : Bool :=
  match digest with
  | .wellFormed scheme salt value =>
      ctx.schemes.contains scheme && (value == rawHash scheme salt plain)
  | .malformed _ => false

/-!  ## Token Codec (jose.jwt / PyJWT)

A signed token is modelled as the claim set together with the secret and
algorithm it was signed with; a raw string that is not a structurally valid
token is `Credential.raw`.  `jose_decode` models `jose.jwt.decode`: it
fails on a raw string, on a secret or algorithm mismatch, and on an expired
`exp` claim; otherwise it returns the claim set. -/

/-- A signed JWT: claim set plus signing secret and algorithm. -/
structure Jwt where
  payload : Payload
  secret : String
  alg : String
deriving DecidableEq, Repr

/-- A raw inbound credential string: either a structurally valid signed token
or any other string (API keys, garbage). -/
inductive Credential where
  | jwt (t : Jwt)
  | raw (s : String)
deriving DecidableEq, Repr

/-- The wire text of a credential, as handed to the API-key digest lookup.
For a structurally valid token the concrete text is irrelevant to every
theorem; `reprStr` is an executable stand-in serialization. -/
def Credential.asString : Credential → String
  | .raw s => s
  | .jwt t => "jwt:" ++ reprStr t

/-- The `exp`-claim check of `jose.jwt.decode`: an `exp` claim in the past
(or non-numeric) fails, an absent `exp` claim passes. -/
def expOk (p : Payload) (now : Nat) : Bool :=
  match plookup p "exp" with
  | some (.num e) => (now : Int) < e
  | some _ => false
  | none => true

/-- Embeds `jose.jwt.decode(token, secret, algorithms=...)`: the claim set when the
token is structurally valid, signed with `secret` under one of `algorithms`,
and unexpired; `none` (a raised `JWTError`) otherwise. -/
def jose_decode (cred : Credential) (secret : String) (algorithms : List String)
    (now : Nat) : Option Payload :=
  match cred with
  | .raw _ => none
  | .jwt t =>
      if t.secret == secret && algorithms.contains t.alg && expOk t.payload now then
        some t.payload
      else none

/-!  ## AuthenticationService (`middleware/auth.py`) -/

/-- Embeds `AuthenticationService.__init__`: the passlib context built from the
configured schemes, and whether a Cognito client was constructed. -/
structure AuthenticationService where
  pwd_context : CryptContext
  cognito_client : Bool
deriving DecidableEq, Repr

/-- Embeds `AuthenticationService()` constructed from settings: the Cognito client
exists exactly when `enable_aws_auth` is set; `salt` is the state of the salt
generator backing the passlib context. -/
def AuthenticationService.fromSettings (st : Settings) (salt : Nat) : AuthenticationService :=
  { pwd_context := { schemes := st.password_hash_schemes, next_salt := salt },
    cognito_client := st.enable_aws_auth }

/-- Embeds `AuthenticationService.verify_password`. -/
def AuthenticationService.verify_password (svc : AuthenticationService)
    (plain_password : String) (hashed_password : DigestStr) : Bool :=
  svc.pwd_context.verify plain_password hashed_password

/-- Embeds `AuthenticationService.get_password_hash`. -/
def AuthenticationService.get_password_hash (svc : AuthenticationService)
    (password : String) : DigestStr :=
  svc.pwd_context.hash password

/-- Embeds `AuthenticationService.create_access_token`: copies `data`, sets `exp` to
now plus the delta (the configured TTL when the delta is absent or zero, as
`if expires_delta:` is false for a zero timedelta) and `type` to `"access"`,
and signs with the configured secret and algorithm. -/
def AuthenticationService.create_access_token (st : Settings) (now : Nat)
    (data : Payload) (expires_delta : Option Nat) : Jwt :=
  let expire : Nat :=
    match expires_delta with
    | some d => if d == 0 then now + st.access_token_expire_minutes * 60 else now + d
    | none => now + st.access_token_expire_minutes * 60
  let to_encode := pset (pset data "exp" (.num expire)) "type" (.str "access")
  { payload := to_encode, secret := st.secret_key, alg := st.algorithm }

/-- Embeds `AuthenticationService.create_refresh_token`: copies `data`, sets `exp`
to now plus the configured refresh TTL in days and `type` to `"refresh"`,
and signs with the configured secret and algorithm. -/
def AuthenticationService.create_refresh_token (st : Settings) (now : Nat)
    (data : Payload) : Jwt :=
  let expire : Nat := now + st.refresh_token_expire_days * 86400
  let to_encode := pset (pset data "exp" (.num expire)) "type" (.str "refresh")
  { payload := to_encode, secret := st.secret_key, alg := st.algorithm }

/-- Embeds `AuthenticationService.verify_token`: decode against the configured
secret and algorithm; `none` on any `JWTError`. -/
def AuthenticationService.verify_token (st : Settings) (now : Nat)
    (token : Credential) : Option Payload :=
  jose_decode token st.secret_key [st.algorithm] now

/-- Embeds `AuthenticationService.verify_cognito_token`: requires the feature flag
and a constructed client; then decodes with `verify_signature: False`, which
in PyJWT also disables the expiry and audience checks, so any structurally
valid token yields its claim set regardless of secret, algorithm or `exp`. -/
def AuthenticationService.verify_cognito_token (st : Settings)
    (svc : AuthenticationService) (token : Credential) : Option Payload :=
  if !st.enable_aws_auth || !svc.cognito_client then none
  else
    match token with
    | .jwt t => some t.payload
    | .raw _ => none

/-- The claims-to-identity mapping of the Cognito login path
(`AuthenticationService._authenticate_cognito_user`): role from the
`custom:role` claim with default `"user"` when the key is absent,
organization from `custom:organization`.  (The `cognito_tokens` entry of the
Python dict is omitted; no claim concerns it.) -/
def cognitoUserMapping (user_info : Payload) : Payload :=
  [("user_id", pget user_info "sub"),
   ("email", pget user_info "email"),
   ("first_name", pget user_info "given_name"),
   ("last_name", pget user_info "family_name"),
   ("role", pgetD user_info "custom:role" (.str "user")),
   ("organization", pget user_info "custom:organization")]

/-!  ## Credential Store rows and queries -/

/-- A row of the `users` table, with the columns read by the auth core.
`organization` is nullable, hence a `Jval`. -/
structure UserRecord where
  id : String
  email : String
  first_name : String
  last_name : String
  role : String
  organization : Jval
deriving DecidableEq, Repr

/-- A row of the `api_keys` table, with the columns read by the auth core. -/
structure ApiKeyRecord where
  user_id : String
  key_hash : DigestStr
  is_active : Bool
  expires_at : Option Nat
deriving DecidableEq, Repr

/-- The relational store consulted by the auth core. -/
structure Database where
  users : List UserRecord
  api_keys : List ApiKeyRecord
deriving DecidableEq, Repr

/-- The SQL predicate `is_active = true AND (expires_at IS NULL OR
expires_at > NOW())` shared by both API-key queries. -/
def apiKeyLive (now : Nat) (ak : ApiKeyRecord) : Bool :=
  ak.is_active &&
    (match ak.expires_at with
     | none => true
     | some e => now < e)

/-- The rows of `api_keys` satisfying `key_hash = :key_hash` and the
liveness predicate, in table order. -/
def liveKeyRows (db : Database) (key_hash : DigestStr) (now : Nat) : List ApiKeyRecord :=
  db.api_keys.filter (fun ak => (ak.key_hash == key_hash) && apiKeyLive now ak)

/-!  ## AuthMiddleware (`middleware/auth.py`) -/

/-- Embeds `AuthMiddleware._verify_api_key`: hash the presented key with the
passlib context of the auth service and test whether a live row with that
digest exists. -/
def AuthMiddleware.verify_api_key (svc : AuthenticationService) (db : Database)
    (now : Nat) (api_key : String) : Bool :=
  ((liveKeyRows db (svc.get_password_hash api_key) now).head?).isSome

/-- The identity dictionary built by `AuthMiddleware._get_api_key_user` from
the joined user row. -/
def mkApiKeyIdentity (u : UserRecord) : Payload :=
  [("user_id", .str u.id),
   ("email", .str u.email),
   ("first_name", .str u.first_name),
   ("last_name", .str u.last_name),
   ("role", .str u.role),
   ("organization", u.organization),
   ("auth_type", .str "api_key")]

/-- Embeds `AuthMiddleware._get_api_key_user`: join the live rows with matching
digest to the owning user row and map the first joined row to an identity
dictionary tagged `auth_type = "api_key"`. -/
def AuthMiddleware.get_api_key_user (svc : AuthenticationService) (db : Database)
    (now : Nat) (api_key : String) : Option Payload :=
  (((liveKeyRows db (svc.get_password_hash api_key) now).filterMap
      (fun ak => db.users.find? (fun u => u.id == ak.user_id))).head?).map
    mkApiKeyIdentity

/-- Embeds `AuthMiddleware._verify_token`: the ordered fallback chain.  Local JWT
verification first (a truthy payload is returned as the identity, with no
check of the `type` claim); then, when `enable_aws_auth` is set, Cognito
verification (the raw claim set is returned unchanged); then the API-key
lookup. -/
def AuthMiddleware.verify_token (st : Settings) (svc : AuthenticationService)
    (db : Database) (now : Nat) (cred : Credential) : Option Payload :=
  let user_data := AuthenticationService.verify_token st now cred
  if pyTruthy user_data then user_data
  else
    let cognito_data :=
      if st.enable_aws_auth then AuthenticationService.verify_cognito_token st svc cred
      else none
    if pyTruthy cognito_data then cognito_data
    else
      if AuthMiddleware.verify_api_key svc db now cred.asString then
        AuthMiddleware.get_api_key_user svc db now cred.asString
      else none

/-- The inbound request surface read by the middleware: the URL path, the
`Authorization` header and the `X-API-Key` header. -/
structure Request where
  path : String
  authorization : Option String
  x_api_key : Option String
deriving DecidableEq, Repr

/-- Embeds `AuthMiddleware._extract_token`: a truthy `Authorization` header with the
exact prefix `"Bearer "` yields the second space-separated field (which is
the empty string when nothing follows the prefix); otherwise a truthy
`X-API-Key` header is returned verbatim; otherwise `None`.  When the header
starts with `"Bearer "` the split has at least two fields, so the Python
index `[1]` never faults and equals `getD 1`. -/
def AuthMiddleware.extract_token (req : Request) : Option String :=
  if pyTruthyStr req.authorization
      && strStartsWith (req.authorization.getD "") "Bearer " then
    some ((pySplitSpace (req.authorization.getD "")).getD 1 "")
  else
    if pyTruthyStr req.x_api_key then req.x_api_key else none

/-- The `public_routes` set fixed at `AuthMiddleware.__init__`. -/
def AuthMiddleware.public_routes : List String :=
  ["/health", "/metrics", "/auth/login", "/auth/refresh",
   "/docs", "/redoc", "/openapi.json"]

/-- The outcome of `AuthMiddleware.dispatch`: `rejected` short-circuits with
a response and never invokes `call_next`; `proceeded` invokes `call_next`,
with `some identity` previously attached as `request.state.current_user`
(or `none` attached on the public bypass). -/
inductive DispatchResult where
  | rejected (status_code : Nat) (body : String)
  | proceeded (current_user : Option Payload)
deriving DecidableEq, Repr

/-- The exact 401 body emitted when no credential is extracted. -/
def missingTokenBody : String :=
  "\x7b\"error\": \"AUTHENTICATION_ERROR\", \"message\": \"No authentication token provided\"\x7d"

/-- The exact 401 body emitted when the extracted credential resolves to no
identity. -/
def invalidTokenBody : String :=
  "\x7b\"error\": \"AUTHENTICATION_ERROR\", \"message\": \"Invalid or expired token\"\x7d"

/-- Embeds `AuthMiddleware.dispatch`, parameterized by the bound resolution method
`resolve` (standing for `self._verify_token`): public-prefix bypass, then
credential extraction with Python truthiness (so `None` and `""` are both
treated as missing), then resolution, whose falsy result (`None` or an empty
dict) rejects and whose truthy result is attached and forwarded. -/
def AuthMiddleware.dispatch (public_routes : List String)
    (resolve : String → Option Payload) (req : Request) : DispatchResult :=
  if public_routes.any (fun route => strStartsWith req.path route) then
    .proceeded none
  else
    let token := AuthMiddleware.extract_token req
    if !pyTruthyStr token then
      .rejected 401 missingTokenBody
    else
      let user_data := resolve (token.getD "")
      if !pyTruthy user_data then
        .rejected 401 invalidTokenBody
      else
        .proceeded user_data

/-- The resolution method of a concrete middleware instance, as passed to
`dispatch`: `wire` is the decoding of wire text into the credential model
(the JOSE serialization, abstracted). -/
def AuthMiddleware.resolve (st : Settings) (svc : AuthenticationService)
    (db : Database) (now : Nat) (wire : String → Credential) :
    String → Option Payload :=
  fun s => AuthMiddleware.verify_token st svc db now (wire s)

/-!  ## Refresh endpoint (`routes/auth.py`, `schemas/auth.py`) -/

/-- Embeds `schemas/auth.py::TokenResponse` with its field defaults: no refresh
token unless one is supplied, `token_type = "bearer"`. -/
structure TokenResponse where
  access_token : Jwt
  refresh_token : Option Jwt := none
  token_type : String := "bearer"
  expires_in : Nat
deriving DecidableEq, Repr

/-- The outcome of the refresh endpoint: a raised `AuthenticationError`
(401, error code AUTHENTICATION_ERROR) or a `TokenResponse`. -/
inductive RefreshResult where
  | authError (message : String)
  | ok (response : TokenResponse)
deriving DecidableEq, Repr

/-- Embeds `routes/auth.py::refresh_token`: verify the presented token, require a
truthy payload whose `type` claim equals `"refresh"`, require a truthy
`sub`, then mint an access token over `sub` and the (absent, hence `None`)
`email` and `role` of the refresh payload, and answer with no new refresh
token and `expires_in = 60 * 30`. -/
def refresh_endpoint (st : Settings) (now : Nat) (refresh_token : Credential) :
    RefreshResult :=
  let payload := AuthenticationService.verify_token st now refresh_token
  if !pyTruthy payload || (pget (payload.getD []) "type" != Jval.str "refresh") then
    .authError "Invalid or expired refresh token"
  else
    let p := payload.getD []
    let user_id := pget p "sub"
    if jvalFalsy user_id then
      .authError "Invalid refresh token payload"
    else
      let token_data : Payload :=
        [("sub", user_id), ("email", pget p "email"), ("role", pget p "role")]
      let access_token := AuthenticationService.create_access_token st now token_data none
      .ok { access_token := access_token, expires_in := 60 * 30 }

/-!  ## Concrete fixtures used by witnesses and counterexamples -/

/-- Concrete settings equal to the configuration defaults of `Settings`. -/
def exSettings : Settings := {}

/-- A concrete authentication service built from the default settings, with
salt-generator state 0. -/
def exSvc : AuthenticationService := AuthenticationService.fromSettings exSettings 0

/-- An empty credential store. -/
def exDbEmpty : Database := { users := [], api_keys := [] }

/-- A concrete refresh token as issued by the login endpoint for subject
`user-1` at time 0 under the default settings. -/
def exRefreshJwt : Jwt :=
  AuthenticationService.create_refresh_token exSettings 0 [("sub", .str "user-1")]

/-- A protected-path request with no credential headers. -/
def exNoCredReq : Request :=
  { path := "/users/profile", authorization := none, x_api_key := none }

/-- A protected-path request whose Authorization header is exactly the
Bearer prefix with nothing after it, alongside a present X-API-Key. -/
def exEmptyBearerReq : Request :=
  { path := "/users/profile", authorization := some "Bearer ",
    x_api_key := some "key-9" }

/-- A protected-path request presenting a bearer token. -/
def exBearerReq : Request :=
  { path := "/users/profile", authorization := some "Bearer token-1",
    x_api_key := none }

/-- A wire decoding on which the text `token-1` denotes the concrete refresh
token. -/
def exWire : String → Credential :=
  fun s => if s = "token-1" then .jwt exRefreshJwt else .raw s

/-- Settings with federated (Cognito) verification enabled. -/
def exAwsSettings : Settings := { enable_aws_auth := true }

/-- The service constructed from the AWS-enabled settings (a Cognito client
exists). -/
def exAwsSvc : AuthenticationService :=
  AuthenticationService.fromSettings exAwsSettings 0

/-- A structurally valid Cognito-style token: signed with a key that is not
the local secret, claim set lacking the custom role claim. -/
def exCognitoJwt : Jwt :=
  { payload := [("sub", .str "cognito-user-1")], secret := "cognito-key",
    alg := "RS256" }

/-- A user row owning an API key. -/
def exUser : UserRecord :=
  { id := "u-42", email := "owner@example.org", first_name := "Ada",
    last_name := "Lovelace", role := "analyst", organization := .str "ACME" }

/-- The raw API key presented by the client. -/
def exApiKey : String := "api-key-raw-1"

/-- The stored API-key row: active, non-expired, digest equal to the hash
the middleware recomputes. -/
def exApiKeyRecord : ApiKeyRecord :=
  { user_id := "u-42", key_hash := exSvc.get_password_hash exApiKey,
    is_active := true, expires_at := some 1000 }

/-- A store holding the user row and the API-key row. -/
def exDb : Database := { users := [exUser], api_keys := [exApiKeyRecord] }

/-!  ## Theorems -/

/-- Helper: local JWT verification succeeds on a token signed with the
configured secret and algorithm whose expiry check passes, and returns its
claim set. -/
theorem verify_token_jwt (st : Settings) (now : Nat) (t : Jwt)
    (h1 : t.secret = st.secret_key) (h2 : t.alg = st.algorithm)
    (h3 : expOk t.payload now = true) :
    AuthenticationService.verify_token st now (.jwt t) = some t.payload := by
  unfold AuthenticationService.verify_token jose_decode
  simp only [h1, h2, h3, beq_self_eq_true, List.contains_cons, List.contains_nil,
    Bool.or_false, Bool.true_and, Bool.and_true, if_true]

/-- Helper: the refresh endpoint rejects every presented token whose
verified payload does not carry `type = "refresh"`. -/
theorem refresh_endpoint_reject_type (st : Settings) (now : Nat)
    (tok : Credential) (p : Payload)
    (hv : AuthenticationService.verify_token st now tok = some p)
    (ht : pget p "type" ≠ .str "refresh") :
    refresh_endpoint st now tok = .authError "Invalid or expired refresh token" := by
  have hb : (pget p "type" != Jval.str "refresh") = true := bne_iff_ne.mpr ht
  simp only [refresh_endpoint, hv, Option.getD_some, hb, Bool.or_true, if_true]

/-- Helper: the refresh endpoint, on a verified payload with
`type = "refresh"` and a truthy subject, answers with a fresh access token
over the payload claims, no new refresh token, bearer type and
`expires_in = 1800`. -/
theorem refresh_endpoint_accept (st : Settings) (now : Nat)
    (tok : Credential) (p : Payload)
    (hv : AuthenticationService.verify_token st now tok = some p)
    (ht : pget p "type" = .str "refresh")
    (hs : jvalFalsy (pget p "sub") = false) :
    refresh_endpoint st now tok =
      .ok { access_token := AuthenticationService.create_access_token st now
              [("sub", pget p "sub"), ("email", pget p "email"),
               ("role", pget p "role")] none,
            refresh_token := none, token_type := "bearer",
            expires_in := 1800 } := by
  have hne : p ≠ [] := by
    intro h0
    rw [h0] at ht
    exact absurd ht (by decide)
  have hpe : p.isEmpty = false := by
    cases p with
    | nil => exact absurd rfl hne
    | cons a l => rfl
  simp only [refresh_endpoint, hv, Option.getD_some, pyTruthy, hpe,
    Bool.not_false, Bool.not_true, ht, bne_self_eq_false, Bool.or_false,
    Bool.false_or, if_false, hs, Bool.false_eq_true, ite_false]

/-- C3.  For every plaintext and every digest (well-formed or malformed),
`verify_password` is a total Bool-valued function, true exactly when the
digest is the re-hash of the plaintext under the scheme and salt recorded in
the digest and that scheme is configured; in particular it is false (and
does not throw) on every malformed digest. -/
theorem c3_verify_password_total_correct (svc : AuthenticationService)
    (plain : String) (d : DigestStr) :
    svc.verify_password plain d = true ↔
      ∃ scheme salt, d = .wellFormed scheme salt (rawHash scheme salt plain) ∧
        svc.pwd_context.schemes.contains scheme = true := by
  cases d with
  | wellFormed scheme salt value =>
      simp only [AuthenticationService.verify_password, CryptContext.verify,
        Bool.and_eq_true, beq_iff_eq, DigestStr.wellFormed.injEq]
      constructor
      · rintro ⟨hc, hv⟩
        exact ⟨scheme, salt, ⟨rfl, rfl, hv⟩, hc⟩
      · rintro ⟨s, sa, ⟨h1, h2, h3⟩, hc⟩
        subst h1
        subst h2
        exact ⟨hc, h3⟩
  | malformed t =>
      simp [AuthenticationService.verify_password, CryptContext.verify]

/-- C8.  For every password `p`, verifying `p` against its own fresh hash
succeeds, for any service whose configured scheme list is nonempty (passlib
refuses to construct a context with no schemes; the repository configures
`["bcrypt"]`). -/
theorem c8_password_hash_roundtrip (svc : AuthenticationService) (p : String)
    (h : svc.pwd_context.schemes ≠ []) :
    svc.verify_password p (svc.get_password_hash p) = true := by
  unfold AuthenticationService.verify_password AuthenticationService.get_password_hash
    CryptContext.verify CryptContext.hash
  cases hs : svc.pwd_context.schemes with
  | nil => exact absurd hs h
  | cons a l => simp [hs]

/-- Witness for C8 at a concrete service and password. -/
theorem c8_witness :
    exSvc.verify_password "hunter2" (exSvc.get_password_hash "hunter2") = true :=
  c8_password_hash_roundtrip exSvc "hunter2" (by decide)

/-- C7.  Verifying a freshly issued access token — built over subject `s`,
role `r` and email as the login endpoint builds it, verified before expiry
under the same secret and algorithm — yields a claim set with `sub = s` and
`type = "access"`. -/
theorem c7_issue_verify_roundtrip (st : Settings) (now0 now1 : Nat)
    (s r email : String)
    (h : now1 < now0 + st.access_token_expire_minutes * 60) :
    ∃ p,
      AuthenticationService.verify_token st now1
        (.jwt (AuthenticationService.create_access_token st now0
          [("sub", .str s), ("email", .str email), ("role", .str r)] none)) = some p ∧
      pget p "sub" = .str s ∧ pget p "type" = .str "access" := by
  refine ⟨[("sub", .str s), ("email", .str email), ("role", .str r),
      ("exp", .num ((now0 + st.access_token_expire_minutes * 60 : Nat) : Int)),
      ("type", .str "access")], ?_, rfl, rfl⟩
  have hpay : AuthenticationService.create_access_token st now0
      [("sub", Jval.str s), ("email", Jval.str email), ("role", Jval.str r)] none =
      { payload := [("sub", Jval.str s), ("email", Jval.str email), ("role", Jval.str r),
          ("exp", Jval.num ((now0 + st.access_token_expire_minutes * 60 : Nat) : Int)),
          ("type", Jval.str "access")],
        secret := st.secret_key, alg := st.algorithm } := rfl
  rw [hpay]
  have hexp : expOk [("sub", Jval.str s), ("email", Jval.str email), ("role", Jval.str r),
      ("exp", Jval.num ((now0 + st.access_token_expire_minutes * 60 : Nat) : Int)),
      ("type", Jval.str "access")] now1 = true := by
    have hlk : plookup [("sub", Jval.str s), ("email", Jval.str email), ("role", Jval.str r),
        ("exp", Jval.num ((now0 + st.access_token_expire_minutes * 60 : Nat) : Int)),
        ("type", Jval.str "access")] "exp" =
        some (Jval.num ((now0 + st.access_token_expire_minutes * 60 : Nat) : Int)) := rfl
    unfold expOk
    rw [hlk]
    simp only [decide_eq_true_eq]
    exact_mod_cast h
  unfold AuthenticationService.verify_token jose_decode
  simp only [hexp, beq_self_eq_true, List.contains_cons, List.contains_nil,
    Bool.or_false, Bool.true_and, Bool.and_true, if_true]

/-- Witness for C7 at concrete subject, role, email and times. -/
theorem c7_witness :
    ∃ p,
      AuthenticationService.verify_token exSettings 0
        (.jwt (AuthenticationService.create_access_token exSettings 0
          [("sub", .str "user-1"), ("email", .str "a@b.example"),
           ("role", .str "admin")] none)) = some p ∧
      pget p "sub" = .str "user-1" ∧ pget p "type" = .str "access" :=
  c7_issue_verify_roundtrip exSettings 0 0 "user-1" "admin" "a@b.example" (by decide)

/-- C5.  The refresh endpoint accepts a refresh token; a verified payload
whose `type` claim is not `"refresh"` (in particular an access token) is
rejected with an authentication error, and a valid refresh token (truthy
subject) yields an access token, `token_type = "bearer"`,
`expires_in = 1800` and no new refresh token. -/
theorem c5_refresh_endpoint_contract (st : Settings) (now : Nat)
    (tok : Credential) (p : Payload)
    (hv : AuthenticationService.verify_token st now tok = some p) :
    (pget p "type" ≠ .str "refresh" →
      refresh_endpoint st now tok = .authError "Invalid or expired refresh token") ∧
    (pget p "type" = .str "refresh" → jvalFalsy (pget p "sub") = false →
      refresh_endpoint st now tok =
        .ok { access_token := AuthenticationService.create_access_token st now
                [("sub", pget p "sub"), ("email", pget p "email"),
                 ("role", pget p "role")] none,
              refresh_token := none, token_type := "bearer",
              expires_in := 1800 }) :=
  ⟨fun ht => refresh_endpoint_reject_type st now tok p hv ht,
   fun ht hs => refresh_endpoint_accept st now tok p hv ht hs⟩

/-- Witness for C5: a concrete freshly issued refresh token is exchanged for
an access token with no new refresh token, and a concrete access token
presented to the endpoint is rejected. -/
theorem c5_witness :
    refresh_endpoint exSettings 0 (.jwt exRefreshJwt) =
      .ok { access_token := AuthenticationService.create_access_token exSettings 0
              [("sub", .str "user-1"), ("email", .null), ("role", .null)] none,
            refresh_token := none, token_type := "bearer",
            expires_in := 1800 } ∧
    refresh_endpoint exSettings 0
        (.jwt (AuthenticationService.create_access_token exSettings 0
          [("sub", .str "user-1"), ("email", .str "a@b.example"),
           ("role", .str "admin")] none)) =
      .authError "Invalid or expired refresh token" := by
  constructor
  · have hv : AuthenticationService.verify_token exSettings 0 (.jwt exRefreshJwt) =
        some [("sub", Jval.str "user-1"), ("exp", Jval.num 604800),
              ("type", Jval.str "refresh")] := by decide
    exact (c5_refresh_endpoint_contract exSettings 0 (.jwt exRefreshJwt) _ hv).2
      (by decide) (by decide)
  · have hv : AuthenticationService.verify_token exSettings 0
        (.jwt (AuthenticationService.create_access_token exSettings 0
          [("sub", .str "user-1"), ("email", .str "a@b.example"),
           ("role", .str "admin")] none)) =
        some [("sub", Jval.str "user-1"), ("email", Jval.str "a@b.example"),
              ("role", Jval.str "admin"), ("exp", Jval.num 1800),
              ("type", Jval.str "access")] := by decide
    exact (c5_refresh_endpoint_contract exSettings 0 _ _ hv).1 (by decide)

/-- C9.  An access token minted by the refresh endpoint from a refresh token
issued over the subject alone carries `email` and `role` claims whose value
is null: the refresh payload embeds only `sub`, `exp` and `type`, and the
endpoint copies its absent `email` and `role` into the new claims. -/
theorem c9_refresh_minted_null_claims (st : Settings) (now0 now1 : Nat)
    (uid : String)
    (hexp : now1 < now0 + st.refresh_token_expire_days * 86400)
    (huid : uid ≠ "") :
    ∃ resp,
      refresh_endpoint st now1
        (.jwt (AuthenticationService.create_refresh_token st now0
          [("sub", .str uid)])) = .ok resp ∧
      plookup resp.access_token.payload "email" = some .null ∧
      plookup resp.access_token.payload "role" = some .null ∧
      pget resp.access_token.payload "sub" = .str uid ∧
      resp.refresh_token = none := by
  have hpay : AuthenticationService.create_refresh_token st now0
      [("sub", Jval.str uid)] =
      { payload := [("sub", Jval.str uid),
          ("exp", Jval.num ((now0 + st.refresh_token_expire_days * 86400 : Nat) : Int)),
          ("type", Jval.str "refresh")],
        secret := st.secret_key, alg := st.algorithm } := rfl
  rw [hpay]
  have hv : AuthenticationService.verify_token st now1
      (.jwt { payload := [("sub", Jval.str uid),
                ("exp", Jval.num ((now0 + st.refresh_token_expire_days * 86400 : Nat) : Int)),
                ("type", Jval.str "refresh")],
              secret := st.secret_key, alg := st.algorithm }) =
      some [("sub", Jval.str uid),
          ("exp", Jval.num ((now0 + st.refresh_token_expire_days * 86400 : Nat) : Int)),
          ("type", Jval.str "refresh")] := by
    apply verify_token_jwt st now1 _ rfl rfl
    have hlk : plookup [("sub", Jval.str uid),
        ("exp", Jval.num ((now0 + st.refresh_token_expire_days * 86400 : Nat) : Int)),
        ("type", Jval.str "refresh")] "exp" =
        some (Jval.num ((now0 + st.refresh_token_expire_days * 86400 : Nat) : Int)) := rfl
    unfold expOk
    rw [hlk]
    simp only [decide_eq_true_eq]
    exact_mod_cast hexp
  have hs : jvalFalsy (pget [("sub", Jval.str uid),
      ("exp", Jval.num ((now0 + st.refresh_token_expire_days * 86400 : Nat) : Int)),
      ("type", Jval.str "refresh")] "sub") = false := by
    show (uid == "") = false
    exact beq_eq_false_iff_ne.mpr huid
  have hok := refresh_endpoint_accept st now1 _ _ hv rfl hs
  refine ⟨_, hok, rfl, rfl, rfl, rfl⟩

/-- Witness for C9 at a concrete subject and times. -/
theorem c9_witness :
    ∃ resp,
      refresh_endpoint exSettings 0
        (.jwt (AuthenticationService.create_refresh_token exSettings 0
          [("sub", .str "user-1")])) = .ok resp ∧
      plookup resp.access_token.payload "email" = some .null ∧
      plookup resp.access_token.payload "role" = some .null ∧
      pget resp.access_token.payload "sub" = .str "user-1" ∧
      resp.refresh_token = none :=
  c9_refresh_minted_null_claims exSettings 0 0 "user-1" (by decide) (by decide)

/-- C6.  A request to a non-public path carrying neither an Authorization
header with the exact `Bearer ` prefix nor an X-API-Key header is rejected
with status 401 and the exact missing-credential body, for every resolution
method, and the downstream handler is never invoked. -/
theorem c6_missing_credential_rejected (resolve : String → Option Payload)
    (req : Request)
    (hpub : AuthMiddleware.public_routes.any
      (fun route => strStartsWith req.path route) = false)
    (hauth : ∀ a, req.authorization = some a → strStartsWith a "Bearer " = false)
    (hkey : req.x_api_key = none) :
    AuthMiddleware.dispatch AuthMiddleware.public_routes resolve req =
      .rejected 401 missingTokenBody ∧
    ∀ u, AuthMiddleware.dispatch AuthMiddleware.public_routes resolve req ≠
      .proceeded u := by
  have hext : AuthMiddleware.extract_token req = none := by
    unfold AuthMiddleware.extract_token
    rw [hkey]
    cases ha : req.authorization with
    | none => rfl
    | some a =>
        have hpre := hauth a ha
        simp [pyTruthyStr, hpre]
  have heq : AuthMiddleware.dispatch AuthMiddleware.public_routes resolve req =
      .rejected 401 missingTokenBody := by
    unfold AuthMiddleware.dispatch
    simp [hpub, hext, pyTruthyStr]
  refine ⟨heq, ?_⟩
  intro u h
  rw [heq] at h
  exact DispatchResult.noConfusion h

/-- Witness for C6 at a concrete protected-path request with no headers. -/
theorem c6_witness :
    AuthMiddleware.dispatch AuthMiddleware.public_routes (fun _ => none)
      exNoCredReq = .rejected 401 missingTokenBody ∧
    ∀ u, AuthMiddleware.dispatch AuthMiddleware.public_routes (fun _ => none)
      exNoCredReq ≠ .proceeded u :=
  c6_missing_credential_rejected (fun _ => none) exNoCredReq (by decide)
    (fun a ha => Option.noConfusion ha) rfl

/-- C10.  On a non-public path, an Authorization header that is exactly
`Bearer ` extracts the empty string, which dispatch treats as a missing
credential: the missing-credential 401 is returned for every resolution
method (so no resolution attempt is made), whatever the X-API-Key header. -/
theorem c10_empty_bearer_rejected (resolve : String → Option Payload)
    (req : Request)
    (hpub : AuthMiddleware.public_routes.any
      (fun route => strStartsWith req.path route) = false)
    (hauth : req.authorization = some "Bearer ") :
    AuthMiddleware.extract_token req = some "" ∧
    AuthMiddleware.dispatch AuthMiddleware.public_routes resolve req =
      .rejected 401 missingTokenBody := by
  have hext : AuthMiddleware.extract_token req = some "" := by
    unfold AuthMiddleware.extract_token
    rw [hauth]
    rfl
  refine ⟨hext, ?_⟩
  unfold AuthMiddleware.dispatch
  simp [hpub, hext, pyTruthyStr]

/-- Witness for C10 at a concrete request carrying an empty Bearer header
and a present X-API-Key, against a resolution method that would succeed. -/
theorem c10_witness :
    AuthMiddleware.extract_token exEmptyBearerReq = some "" ∧
    AuthMiddleware.dispatch AuthMiddleware.public_routes
      (fun _ => some [("user_id", .str "u9")]) exEmptyBearerReq =
      .rejected 401 missingTokenBody :=
  c10_empty_bearer_rejected (fun _ => some [("user_id", .str "u9")])
    exEmptyBearerReq (by decide) rfl

/-- C2.  A raw API key whose digest (recomputed by the middleware through
the Password Hasher) matches exactly one live, non-expired stored row, whose
owning user row exists, passes `_verify_api_key`; `_get_api_key_user` and
the full resolver return the owning user identity tagged
`auth_type = "api_key"`. -/
theorem c2_api_key_resolution (st : Settings) (svc : AuthenticationService)
    (db : Database) (now : Nat) (api_key : String) (row : ApiKeyRecord)
    (u : UserRecord)
    (hrow : liveKeyRows db (svc.get_password_hash api_key) now = [row])
    (huser : db.users.find? (fun w => w.id == row.user_id) = some u) :
    AuthMiddleware.verify_api_key svc db now api_key = true ∧
    AuthMiddleware.get_api_key_user svc db now api_key =
      some (mkApiKeyIdentity u) ∧
    pget (mkApiKeyIdentity u) "auth_type" = .str "api_key" ∧
    AuthMiddleware.verify_token st svc db now (.raw api_key) =
      some (mkApiKeyIdentity u) := by
  have hverify : AuthMiddleware.verify_api_key svc db now api_key = true := by
    unfold AuthMiddleware.verify_api_key
    rw [hrow]
    rfl
  have hget : AuthMiddleware.get_api_key_user svc db now api_key =
      some (mkApiKeyIdentity u) := by
    unfold AuthMiddleware.get_api_key_user
    rw [hrow]
    simp [huser]
  have hcog : AuthenticationService.verify_cognito_token st svc (.raw api_key) =
      none := by
    unfold AuthenticationService.verify_cognito_token
    split
    · rfl
    · rfl
  have hjose : AuthenticationService.verify_token st now (.raw api_key) = none := rfl
  refine ⟨hverify, hget, rfl, ?_⟩
  simp [AuthMiddleware.verify_token, hjose, hcog, pyTruthy,
    Credential.asString, hverify, hget]

/-- Witness for C2 at a concrete store holding one live key row and its
owning user. -/
theorem c2_witness :
    AuthMiddleware.verify_api_key exSvc exDb 500 exApiKey = true ∧
    AuthMiddleware.get_api_key_user exSvc exDb 500 exApiKey =
      some (mkApiKeyIdentity exUser) ∧
    pget (mkApiKeyIdentity exUser) "auth_type" = .str "api_key" ∧
    AuthMiddleware.verify_token exSettings exSvc exDb 500 (.raw exApiKey) =
      some (mkApiKeyIdentity exUser) :=
  c2_api_key_resolution exSettings exSvc exDb 500 exApiKey exApiKeyRecord exUser
    (by decide) (by decide)

/-- C1 counterexample: a valid refresh token (claim `type = "refresh"`)
presented as the bearer credential of a protected-path request is accepted
by `_verify_token`, and dispatch attaches its payload as the identity and
proceeds downstream — the request is not rejected, contradicting the
claim. -/
theorem c1_counterexample :
    AuthMiddleware.verify_token exSettings exSvc exDbEmpty 0 (.jwt exRefreshJwt) =
      some exRefreshJwt.payload ∧
    pget exRefreshJwt.payload "type" = .str "refresh" ∧
    AuthMiddleware.dispatch AuthMiddleware.public_routes
      (AuthMiddleware.resolve exSettings exSvc exDbEmpty 0 exWire) exBearerReq =
      .proceeded (some exRefreshJwt.payload) := by
  decide

/-- C1 (amended).  When `_verify_token` succeeds on a bearer token whose
`type` claim is `"refresh"`, the request is NOT rejected: the payload is
attached as the request identity and the downstream handler runs.  The
middleware never inspects the `type` claim; only the refresh endpoint
does. -/
theorem c1_refresh_token_attached (st : Settings) (svc : AuthenticationService)
    (db : Database) (now : Nat) (wire : String → Credential) (req : Request)
    (tok : String) (t : Jwt)
    (hpub : AuthMiddleware.public_routes.any
      (fun route => strStartsWith req.path route) = false)
    (hext : AuthMiddleware.extract_token req = some tok)
    (hne : tok ≠ "")
    (hwire : wire tok = .jwt t)
    (hsec : t.secret = st.secret_key) (halg : t.alg = st.algorithm)
    (hexp : expOk t.payload now = true)
    (htype : pget t.payload "type" = .str "refresh") :
    AuthMiddleware.verify_token st svc db now (.jwt t) = some t.payload ∧
    AuthMiddleware.dispatch AuthMiddleware.public_routes
      (AuthMiddleware.resolve st svc db now wire) req =
      .proceeded (some t.payload) := by
  have hv : AuthenticationService.verify_token st now (.jwt t) = some t.payload :=
    verify_token_jwt st now t hsec halg hexp
  have hnil : t.payload ≠ [] := by
    intro h0
    rw [h0] at htype
    exact absurd htype (by decide)
  have hpe : t.payload.isEmpty = false := by
    cases hp : t.payload with
    | nil => exact absurd hp hnil
    | cons a l => rfl
  have hmw : AuthMiddleware.verify_token st svc db now (.jwt t) = some t.payload := by
    simp [AuthMiddleware.verify_token, hv, pyTruthy, hpe]
  refine ⟨hmw, ?_⟩
  have htok : (tok == "") = false := beq_eq_false_iff_ne.mpr hne
  simp [AuthMiddleware.dispatch, hpub, hext, pyTruthyStr, htok,
    AuthMiddleware.resolve, hwire, hmw, pyTruthy, hpe]

/-- Witness for the amended C1 at the concrete refresh token and request of
the counterexample. -/
theorem c1_witness :
    AuthMiddleware.verify_token exSettings exSvc exDbEmpty 0 (.jwt exRefreshJwt) =
      some exRefreshJwt.payload ∧
    AuthMiddleware.dispatch AuthMiddleware.public_routes
      (AuthMiddleware.resolve exSettings exSvc exDbEmpty 0 exWire) exBearerReq =
      .proceeded (some exRefreshJwt.payload) :=
  c1_refresh_token_attached exSettings exSvc exDbEmpty 0 exWire exBearerReq
    "token-1" exRefreshJwt (by decide) (by decide) (by decide) (by decide)
    rfl rfl (by decide) (by decide)

/-- C4 counterexample: with federated verification enabled, a provider token
lacking the custom role claim is resolved to its raw claim set: the attached
identity carries no role key at all — not a role defaulted to `"user"` —
while the login-path mapping of the same claims would yield role `"user"`. -/
theorem c4_counterexample :
    AuthMiddleware.verify_token exAwsSettings exAwsSvc exDbEmpty 0
      (.jwt exCognitoJwt) = some [("sub", .str "cognito-user-1")] ∧
    plookup [("sub", Jval.str "cognito-user-1")] "role" = none ∧
    pget (cognitoUserMapping [("sub", Jval.str "cognito-user-1")]) "role" =
      .str "user" := by
  decide

/-- C4 (amended).  When federated verification is enabled (flag set and
client constructed) and local JWT verification fails, the resolver returns
the provider token claim set unchanged — no signature check, no mapping to
an Identity and no role default — for every non-empty claim set. -/
theorem c4_cognito_returns_raw_claims (st : Settings)
    (svc : AuthenticationService) (db : Database) (now : Nat) (t : Jwt)
    (haws : st.enable_aws_auth = true)
    (hcli : svc.cognito_client = true)
    (hlocal : AuthenticationService.verify_token st now (.jwt t) = none)
    (hne : t.payload ≠ []) :
    AuthMiddleware.verify_token st svc db now (.jwt t) = some t.payload := by
  have hcog : AuthenticationService.verify_cognito_token st svc (.jwt t) =
      some t.payload := by
    unfold AuthenticationService.verify_cognito_token
    rw [haws, hcli]
    rfl
  have hpe : t.payload.isEmpty = false := by
    cases hp : t.payload with
    | nil => exact absurd hp hne
    | cons a l => rfl
  simp [AuthMiddleware.verify_token, hlocal, haws, hcog, pyTruthy, hpe]

/-- Witness for the amended C4 at the concrete Cognito-style token. -/
theorem c4_witness :
    AuthMiddleware.verify_token exAwsSettings exAwsSvc exDbEmpty 0
      (.jwt exCognitoJwt) = some exCognitoJwt.payload :=
  c4_cognito_returns_raw_claims exAwsSettings exAwsSvc exDbEmpty 0 exCognitoJwt
    rfl rfl (by decide) (by decide)
